import Mathlib

/-
Verification development for the AI roleplay Telegram bot
(src/bot.py, src/database.py, src/config.py).

All text is modelled as `List Char` (Python `str`), bytes as `List Nat`
(each < 256).  The repository contains two rewritten variants of the bot:
`bot.py` (the main implementation) and `database.py` (an earlier variant
whose module-level comment says it is a bot.py).  Both are embedded where a
claim cites both.
-/

/-! ### Retrying remote caller (bot.py `AIBot.call_hf_space_api`,
database.py `HuggingFaceAPI.call_gradio_api`)

One attempt of the `requests.post` call is abstracted as an
`AttemptOutcome`: HTTP 200 with a JSON result, a non-200 HTTP status, a
`requests.exceptions.Timeout`, a `requests.exceptions.ConnectionError`, or
any other exception.  The environment is an oracle `respond : Nat →
AttemptOutcome α` giving the outcome of each attempt (0-based, matching
`for attempt in range(retries)`).  Wall-clock `response_time` is not
modelled; the second component of a result is the attempt counter that the
source logs per attempt (`attempt + 1`).  Returning `none` models the
Python function falling off the end of the loop (only possible when
`retries = 0`). -/

inductive AttemptOutcome (α : Type) where
  | success (result : α)
  | httpStatus (code : Nat)
  | timeout
  | connectionError
  | otherFailure
deriving DecidableEq

def isFailure {α : Type} : AttemptOutcome α → Bool
  | .success _ => false
  | _ => true

/-- The classified terminal errors raised by the retrying callers. -/
inductive ApiFailure where
  | loading
  | rateLimited
  | serverError (code : Nat)
  | timedOut
  | connectionFailed
  | unexpected
deriving DecidableEq

/-- bot.py `call_hf_space_api` classification: status 503 raises the
"Space is currently loading" error, 429 the "Rate limit exceeded" error,
any other non-200 status the generic "AI service error (code)" error;
`Timeout` raises "AI service timeout", `ConnectionError` raises
"Connection error"; any other exception is re-raised as-is. -/
def classifyHf {α : Type} : AttemptOutcome α → ApiFailure
  | .httpStatus 503 => .loading
  | .httpStatus 429 => .rateLimited
  | .httpStatus c => .serverError c
  | .timeout => .timedOut
  | .connectionError => .connectionFailed
  | _ => .unexpected

/-- database.py `call_gradio_api` classification: any non-200 status raises
"API returned (code)" (no 503/429 special-casing), `Timeout` raises
"AI service is busy", anything else is re-raised as-is (a
`ConnectionError` is caught by the generic handler and re-raised). -/
def classifyGradio {α : Type} : AttemptOutcome α → ApiFailure
  | .httpStatus c => .serverError c
  | .timeout => .timedOut
  | .connectionError => .connectionFailed
  | _ => .unexpected

/-- The shared retry loop of both callers: `for attempt in range(retries)`.
A successful attempt returns immediately; a failing attempt on the last
iteration (`attempt == retries - 1`) raises the classified error, otherwise
the loop sleeps (`RETRY_DELAY * (attempt + 1)`, not modelled) and retries.
`remaining` is the number of loop iterations still available
(`retries - attempt`); the last iteration is `remaining = 1`. -/
def retryLoop {α : Type} (classify : AttemptOutcome α → ApiFailure)
    (respond : Nat → AttemptOutcome α) :
    Nat → Nat → Option (Except (ApiFailure × Nat) (α × Nat))
  | _, 0 => none
  | attempt, remaining + 1 =>
    match respond attempt with
    | .success r => some (.ok (r, attempt + 1))
    | o =>
      if remaining = 0 then some (.error (classify o, attempt + 1))
      else retryLoop classify respond (attempt + 1) remaining

/-- bot.py `AIBot.call_hf_space_api` retry behaviour. -/
def call_hf_space_api {α : Type} (respond : Nat → AttemptOutcome α)
    (retries : Nat) : Option (Except (ApiFailure × Nat) (α × Nat)) :=
  retryLoop classifyHf respond 0 retries

/-- database.py `HuggingFaceAPI.call_gradio_api` retry behaviour. -/
def call_gradio_api {α : Type} (respond : Nat → AttemptOutcome α)
    (retries : Nat) : Option (Except (ApiFailure × Nat) (α × Nat)) :=
  retryLoop classifyGradio respond 0 retries

/-! ### Intent classification (bot.py `AIBot.extract_generation_intent`,
database.py `AIBot.detect_generation_intent`)

Every pattern alternative in the source is either a literal substring or
two literals joined by `.*`.  `re.search(a + ".*" + b, t)` succeeds iff an
occurrence of `a` ends at or before the start of an occurrence of `b`. -/

def toLowerList (l : List Char) : List Char := l.map Char.toLower

/-- Python `needle in hay` / `re.search` of a literal pattern: `needle`
occurs as a contiguous substring of `hay`. -/
def List.isInfixOf {α : Type} [BEq α] : List α → List α → Bool
  | n, [] => n.isEmpty
  | n, c :: t => n.isPrefixOf (c :: t) || List.isInfixOf n t

/-- `re.search` of the pattern `a.*b` on `t`. -/
def matchesSeq (a b t : List Char) : Bool :=
  (List.range (t.length + 1)).any
    (fun n => a.isInfixOf (t.take n) && b.isInfixOf (t.drop n))

/-- bot.py image_patterns (three ordered regexes, each an alternation). -/
def image_match (t : List Char) : Bool :=
  ("show me".data.isInfixOf t || "how do you look".data.isInfixOf t ||
    "what do you look like".data.isInfixOf t ||
    "picture of you".data.isInfixOf t ||
    "visualize yourself".data.isInfixOf t) ||
  ("picture this".data.isInfixOf t || "visualize this".data.isInfixOf t ||
    "show this".data.isInfixOf t || "image of".data.isInfixOf t) ||
  ("draw".data.isInfixOf t || "paint".data.isInfixOf t ||
    "illustrate".data.isInfixOf t ||
    matchesSeq "generate".data "image".data t ||
    matchesSeq "create".data "picture".data t)

/-- bot.py video_patterns (two ordered regexes). -/
def video_match (t : List Char) : Bool :=
  ("animate".data.isInfixOf t || "video".data.isInfixOf t ||
    "movie".data.isInfixOf t || "animation".data.isInfixOf t ||
    "moving".data.isInfixOf t || "motion".data.isInfixOf t) ||
  (matchesSeq "show".data "action".data t ||
    "demonstrate".data.isInfixOf t || "perform".data.isInfixOf t ||
    "act out".data.isInfixOf t)

inductive GenIntent where
  | image (description : List Char)
  | video (action : List Char)
  | noIntent
deriving DecidableEq

/-- bot.py `AIBot.extract_generation_intent`: lowercase the text, try the
image-pattern group first, then the video-pattern group; first match
wins; no match means a plain roleplay reply. -/
def extract_generation_intent (text : List Char) : GenIntent :=
  if image_match (toLowerList text) then .image text
  else if video_match (toLowerList text) then .video text
  else .noIntent

/-- database.py image_patterns (a single alternation regex). -/
def image_match_db (t : List Char) : Bool :=
  "show me".data.isInfixOf t || "how do you look".data.isInfixOf t ||
    "picture of".data.isInfixOf t || "visualize".data.isInfixOf t ||
    "draw".data.isInfixOf t || "image".data.isInfixOf t

/-- database.py video_patterns (a single alternation regex). -/
def video_match_db (t : List Char) : Bool :=
  "animate".data.isInfixOf t || "video".data.isInfixOf t ||
    "movie".data.isInfixOf t || "action".data.isInfixOf t ||
    "demonstrate".data.isInfixOf t

inductive GenIntentDb where
  | image (prompt : List Char)
  | video (prompt : List Char)
  | text
deriving DecidableEq

/-- database.py `AIBot.detect_generation_intent`. -/
def detect_generation_intent (text : List Char) : GenIntentDb :=
  if image_match_db (toLowerList text) then .image text
  else if video_match_db (toLowerList text) then .video text
  else .text

/-! ### Conversation history (bot.py `AIBot.handle_roleplay_conversation`,
database.py `AIBot.handle_roleplay`)

One roleplay exchange appends two turns (the human message and the
character response) and then truncates the history to the retained cap
(`conversation_history[-20:]` in bot.py with cap 20;
`conversation_history[-10:]` in database.py with cap 10), after which
bot.py stores the result back into `self.user_contexts`.  The prompt
window is `conversation_history[-6:]` in bot.py and `[-4:]` in
database.py.  The element type of a turn is irrelevant to the eviction
logic, so the operations are polymorphic; a concrete turn is a
(role, content) pair of strings. -/

/-- Python `l[-n:]`: the last `n` elements of `l` (all of `l` when
`l.length ≤ n`). -/
def lastN {β : Type} (n : Nat) (l : List β) : List β :=
  l.drop (l.length - n)

/-- One exchange of bot.py `handle_roleplay_conversation` as stored back
into the session: extend by the two new turns, then truncate to the last
`cap` turns when the cap is exceeded. -/
def update_history {β : Type} (cap : Nat) (history : List β)
    (userMsg resp : β) : List β :=
  let h := history ++ [userMsg, resp]
  if cap < h.length then h.drop (h.length - cap) else h

/-- The stored history after a sequence of exchanges, starting from the
fresh empty history of a new session. -/
def run_history {β : Type} (cap : Nat) (pairs : List (β × β)) : List β :=
  pairs.foldl (fun h p => update_history cap h p.1 p.2) []

/-- All turns appended over a sequence of exchanges, in append order. -/
def turnsOf {β : Type} (pairs : List (β × β)) : List β :=
  pairs.foldr (fun p acc => p.1 :: p.2 :: acc) []

/-- One exchange of database.py `handle_roleplay` as seen by the stored
session: `conversation_history.extend([...])` mutates the stored list,
but the truncated slice `conversation_history[-10:]` is bound to a local
variable and never written back to `self.user_contexts`, so the stored
history only ever grows. -/
def handle_roleplay_stored {β : Type} (stored : List β) (userMsg resp : β) :
    List β :=
  stored ++ [userMsg, resp]

/-- The stored history of the database.py variant after a sequence of
exchanges. -/
def run_history_db {β : Type} (pairs : List (β × β)) : List β :=
  pairs.foldl (fun h p => handle_roleplay_stored h p.1 p.2) []

/-! ### Failure fallback messages (bot.py `handle_roleplay_conversation`,
`generate_character_image`, `generate_character_video` except-branches)

Each except-branch sends exactly one `reply_text`.  The roleplay and
image branches pick the text by an if/elif chain over substrings of the
error message; the chain is factored here into a classifier plus a
message table, mirroring the source conditions in order. -/

inductive FailureClass where
  | loading
  | rateLimited
  | unavailable
  | generic
deriving DecidableEq

/-- The if/elif chain of bot.py `handle_roleplay_conversation`:
`"loading" in error_msg.lower() or "503" in error_msg`, then
`"rate limit" in error_msg.lower() or "429" in error_msg`, then
`"unavailable" in error_msg.lower()`, else generic. -/
def classify_roleplay_error (e : List Char) : FailureClass :=
  if ("loading".data.isInfixOf (toLowerList e) || "503".data.isInfixOf e) then
    .loading
  else if ("rate limit".data.isInfixOf (toLowerList e) ||
      "429".data.isInfixOf e) then
    .rateLimited
  else if "unavailable".data.isInfixOf (toLowerList e) then .unavailable
  else .generic

/-- The single apology message sent by the roleplay except-branch. -/
def roleplay_fallback (name e : List Char) : List Char :=
  match classify_roleplay_error e with
  | .loading =>
    "🤖 ".data ++ name ++ " is waking up... Please try again in a moment!".data
  | .rateLimited =>
    "🤖 ".data ++ name ++
      " needs a moment to rest... Please try again in a few minutes!".data
  | .unavailable =>
    "🤖 ".data ++ name ++
      " is currently unavailable. The AI service might be down.".data
  | .generic =>
    "*".data ++ name ++ " seems distracted and doesn\x27t respond clearly*".data

/-- The if/elif chain of bot.py `generate_character_image`:
`"loading" in error_msg.lower()`, then `"rate limit" in
error_msg.lower()`, else generic. -/
def classify_image_error (e : List Char) : FailureClass :=
  if "loading".data.isInfixOf (toLowerList e) then .loading
  else if "rate limit".data.isInfixOf (toLowerList e) then .rateLimited
  else .generic

/-- The single apology message sent by the image except-branch. -/
def image_fallback (name e : List Char) : List Char :=
  match classify_image_error e with
  | .loading =>
    "🎨 The image generator is starting up... Please try again in a few minutes!".data
  | .rateLimited =>
    "🎨 Too many image requests right now. Please try again in a few minutes!".data
  | _ =>
    "🎨 Sorry, I couldn\x27t generate an image of ".data ++ name ++
      " right now. Please try again later!".data

/-- The single message sent by the video except-branch of bot.py
`generate_character_video`: a fixed preamble followed by
`Error: {error_msg[:100]}...`. -/
def video_fallback (e : List Char) : List Char :=
  "🎬 Video generation is currently experimental and may not work reliably. The HuggingFace Space might be down or overloaded. Please try image generation instead!\n\nError: ".data ++
    e.take 100 ++ "...".data

/-! ### Reply cleanup and short-reply fallback (bot.py
`handle_roleplay_conversation` success path) -/

/-- The characters removed by Python `str.strip()` with no argument. -/
def py_isspace (c : Char) : Bool :=
  c = ' ' || c = '\t' || c = '\n' || c = '\r' || c = '\x0b' || c = '\x0c'

/-- Python `s.strip()`. -/
def py_strip (l : List Char) : List Char :=
  ((l.dropWhile py_isspace).reverse.dropWhile py_isspace).reverse

/-- Python `s.replace(pat, "")` (left-to-right, non-overlapping), written
with explicit structural fuel so that it evaluates by `decide`/`rfl`;
`fuel = s.length` always suffices since every step consumes at least one
character.  An empty pattern never matches here (Python would interleave
empty insertions; the source only ever passes the non-empty
`character_prompt`). -/
def replaceAllFuel (pat : List Char) : Nat → List Char → List Char
  | 0, s => s
  | _, [] => []
  | fuel + 1, c :: rest =>
    if pat.isPrefixOf (c :: rest) ∧ pat ≠ [] then
      replaceAllFuel pat fuel ((c :: rest).drop pat.length)
    else
      c :: replaceAllFuel pat fuel rest

/-- Python `s.replace(pat, "")`. -/
def replaceAll (pat s : List Char) : List Char :=
  replaceAllFuel pat s.length s

/-- bot.py response cleanup:
`response = generated_text.replace(character_prompt, "").strip()` then
`response = response.split("\n")[0].strip()`. -/
def clean_response (characterPrompt generated : List Char) : List Char :=
  py_strip ((py_strip (replaceAll characterPrompt generated)).takeWhile
    (fun c => c != '\n'))

/-- The synthesized in-character filler:
`f"*{name} pauses thoughtfully* Tell me more about that."`. -/
def fallback_filler (name : List Char) : List Char :=
  "*".data ++ name ++ " pauses thoughtfully* Tell me more about that.".data

/-- bot.py reply decoding: the cleaned response, replaced by the filler
when its length is below 10. -/
def decode_reply (characterPrompt generated name : List Char) : List Char :=
  if (clean_response characterPrompt generated).length < 10 then
    fallback_filler name
  else clean_response characterPrompt generated

/-! ### Image/video prompt construction (bot.py
`generate_character_image`, `generate_character_video`) -/

/-- bot.py image prompt: `f"{appearance}, {description}, high quality,
detailed artwork"` when the description is non-empty and does not contain
`"you look"` (case-insensitively); otherwise the fixed portrait prompt
`f"{appearance}, portrait, high quality, detailed artwork, fantasy art"`
without the user text. -/
def build_image_prompt (appearance description : List Char) : List Char :=
  if description ≠ [] ∧
      "you look".data.isInfixOf (toLowerList description) = false then
    appearance ++ ", ".data ++ description ++
      ", high quality, detailed artwork".data
  else
    appearance ++ ", portrait, high quality, detailed artwork, fantasy art".data

/-- bot.py video prompt:
`f"{appearance}, {action}, smooth animation, high quality"`. -/
def build_video_prompt (appearance action : List Char) : List Char :=
  appearance ++ ", ".data ++ action ++ ", smooth animation, high quality".data

/-! ### Image response decoding (database.py `HuggingFaceAPI.generate_image`,
bot.py `generate_character_image`)

Bytes are `Nat`s below 256.  `base64.b64encode`/`b64decode` of the Python
standard library are modelled concretely for well-formed inputs. -/

def b64Alphabet : List Char :=
  "ABCDEFGHIJKLMNOPQRSTUVWXYZabcdefghijklmnopqrstuvwxyz0123456789+/".data

/-- The base64 character of a 6-bit value. -/
def b64Char (v : Nat) : Char := b64Alphabet.getD v '='

/-- The 6-bit value of a base64 character. -/
def b64Val (c : Char) : Nat := b64Alphabet.indexOf c

/-- `base64.b64encode`: three bytes become four characters; a trailing
group of one or two bytes is padded with `=`. -/
def b64encode : List Nat → List Char
  | [] => []
  | [a] => [b64Char (a / 4), b64Char (a % 4 * 16), '=', '=']
  | [a, b] =>
    [b64Char (a / 4), b64Char (a % 4 * 16 + b / 16), b64Char (b % 16 * 4), '=']
  | a :: b :: c :: rest =>
    b64Char (a / 4) :: b64Char (a % 4 * 16 + b / 16) ::
      b64Char (b % 16 * 4 + c / 64) :: b64Char (c % 64) :: b64encode rest

/-- `base64.b64decode` on well-formed base64 text: four characters become
three bytes; `=` padding ends the data. -/
def b64decode : List Char → List Nat
  | c1 :: c2 :: c3 :: c4 :: rest =>
    if c3 = '=' then [b64Val c1 * 4 + b64Val c2 / 16]
    else if c4 = '=' then
      [b64Val c1 * 4 + b64Val c2 / 16, b64Val c2 % 16 * 16 + b64Val c3 / 4]
    else
      (b64Val c1 * 4 + b64Val c2 / 16) ::
        (b64Val c2 % 16 * 16 + b64Val c3 / 4) ::
        (b64Val c3 % 4 * 64 + b64Val c4) :: b64decode rest
  | _ => []

/-- The shapes a Space can return in `result["data"][0]`: a string, a
dict carrying a fetchable `url`, or anything else. -/
inductive SpacePayload where
  | pstr (s : List Char)
  | urlRef (url : List Char)
  | other

/-- Python `s.split(',')[1]`: the text between the first and the second
comma (database.py data-URI stripping).  On a comma-free string the
Python expression would raise IndexError; it is only reached on
`data:image...` strings, which carry the comma after the URI header. -/
def split_comma_second (s : List Char) : List Char :=
  (((s.dropWhile (fun c => c != ',')).drop 1).takeWhile (fun c => c != ','))

/-- Python `s.split(',', 1)[1]`: everything after the first comma (bot.py
data-URI stripping). -/
def split_comma_rest (s : List Char) : List Char :=
  (s.dropWhile (fun c => c != ',')).drop 1

/-- database.py `generate_image` response handling: a string starting with
`data:image` has its data-URI header stripped and is base64-decoded; any
other string is base64-decoded directly; a dict with a `url` is fetched
(the transport is a collaborator, passed in as `fetch`); anything else
falls through with no bytes. -/
def decode_image_payload (fetch : List Char → List Nat) :
    SpacePayload → Option (List Nat)
  | .pstr s =>
    if "data:image".data.isPrefixOf s then
      some (b64decode (split_comma_second s))
    else some (b64decode s)
  | .urlRef u => some (fetch u)
  | .other => none

/-- bot.py `generate_character_image` response handling: same two string
encodings (using `split(',', 1)`); any non-string payload raises
"Unexpected image format from Space". -/
def decode_image_payload_bot : SpacePayload → Option (List Nat)
  | .pstr s =>
    if "data:image".data.isPrefixOf s then
      some (b64decode (split_comma_rest s))
    else some (b64decode s)
  | _ => none

/-! ### Persona store (bot.py `CharacterManager`) -/

structure Character where
  name : List Char
  lore : List Char
  behavior : List Char
  appearance : List Char
  creator_id : Nat
  isPublic : Bool
deriving DecidableEq

/-- bot.py DEFAULT_CHARACTERS["wizard"]. -/
def wizard_character : Character :=
  ⟨"Eldara the Wise".data,
   "An ancient wizard who has seen centuries pass, keeper of arcane knowledge and mystical secrets. Lives in a tower filled with floating books and magical artifacts.".data,
   "Speaks formally using \x27thee\x27 and \x27thou\x27, often references ancient events, gives cryptic advice, patient and wise but sometimes mysterious".data,
   "Elderly with long silver beard, deep blue robes with golden runes, staff topped with a glowing crystal, piercing violet eyes".data,
   0, true⟩

/-- bot.py DEFAULT_CHARACTERS["android"]. -/
def android_character : Character :=
  ⟨"ARIA-7".data,
   "Advanced android with developing consciousness, created in 2157 to study human emotions and behavior. Has access to vast databases but struggles with feelings.".data,
   "Logical and precise speech, asks questions about human emotions, occasionally glitches with emotional responses, curious and analytical".data,
   "Sleek metallic body with blue LED patterns, expressive digital eyes, graceful movements, sometimes sparks when processing complex emotions".data,
   0, true⟩

/-- bot.py DEFAULT_CHARACTERS["pirate"]. -/
def pirate_character : Character :=
  ⟨"Captain Blackheart".data,
   "Legendary pirate captain who has sailed every ocean and discovered countless treasures. Commands the ship \x27Crimson Storm\x27 with a crew of loyal rogues.".data,
   "Uses nautical terms, tells grand tales of adventure, charismatic and bold, occasionally shows a softer side, loves freedom above all".data,
   "Weathered face with distinctive black beard, tricorn hat with feather, long dark coat, golden earrings, confident swagger".data,
   0, true⟩

/-- bot.py DEFAULT_CHARACTERS["vampire"]. -/
def vampire_character : Character :=
  ⟨"Count Dracul".data,
   "Ancient vampire lord who has lived for over 800 years, dwelling in a Gothic castle. Has witnessed the rise and fall of empires, collects rare books and art.".data,
   "Eloquent and old-fashioned speech, romantically dramatic, occasionally shows vulnerability, values honor and etiquette, nocturnal by nature".data,
   "Pale aristocratic features, long black hair, elegant dark clothing, piercing red eyes, moves with supernatural grace".data,
   0, true⟩

/-- bot.py DEFAULT_CHARACTERS["explorer"]. -/
def explorer_character : Character :=
  ⟨"Captain Nova Sterling".data,
   "Fearless space explorer and starship captain who leads missions to uncharted galaxies. Has discovered three new civilizations and countless alien species.".data,
   "Confident and inspiring, uses space terminology, optimistic about the future, natural leader, always ready for adventure".data,
   "Athletic build in sleek space uniform, short auburn hair, bright green eyes, confident posture, high-tech equipment".data,
   0, true⟩

/-- bot.py `CharacterManager.DEFAULT_CHARACTERS`, keyed by identifier. -/
def DEFAULT_CHARACTERS : List (List Char × Character) :=
  [("wizard".data, wizard_character),
   ("android".data, android_character),
   ("pirate".data, pirate_character),
   ("vampire".data, vampire_character),
   ("explorer".data, explorer_character)]

/-- Python `character_id in DEFAULT_CHARACTERS` followed by
`DEFAULT_CHARACTERS[character_id]`. -/
def default_character_lookup (id : List Char) : Option Character :=
  (DEFAULT_CHARACTERS.find? (fun p => p.1 == id)).map (fun p => p.2)

/-- bot.py `CharacterManager.get_character`: the storage collaborator
`db.get_character` (code outside src/, abstracted as `dbGet`) is asked
first; when it yields nothing and the identifier is a built-in, the
built-in definition is returned. -/
def get_character (dbGet : List Char → Option Character) (id : List Char) :
    Option Character :=
  match dbGet id with
  | some c => some c
  | none => default_character_lookup id

/-! ### User sessions (bot.py `self.user_contexts`) -/

/-- The in-progress guided persona-creation state
(`user_contexts[uid]["creating_character"]`). -/
structure CreationState where
  step : List Char
  data : List (List Char × List Char)
deriving DecidableEq

/-- One entry of `self.user_contexts`: the dicts assigned by the source
carry `current_character` and `conversation_history`, and optionally a
`creating_character` sub-dict. -/
structure Session where
  current_character : List Char
  conversation_history : List (List Char × List Char)
  creating_character : Option CreationState
deriving DecidableEq

/-- `self.user_contexts[user_id] = s` on the session map. -/
def set_user_context (contexts : Nat → Option Session) (uid : Nat)
    (s : Session) : Nat → Option Session :=
  fun u => if u = uid then some s else contexts u

/-- One entry of `CharacterManager.list_available_characters`: the
selection scan only touches `char['name']` and `char.get('id', ...)`
(custom characters from storage may lack an `id` key). -/
structure ListedCharacter where
  id : Option (List Char)
  name : List Char
deriving DecidableEq

/-- The scan of bot.py `select_character_command`: the first listed
character whose lowercased name contains the (already lowercased) query,
or whose id equals the query. -/
def find_character (query : List Char) (chars : List ListedCharacter) :
    Option ListedCharacter :=
  chars.find? (fun c =>
    query.isInfixOf (toLowerList c.name) || query == c.id.getD [])

/-- bot.py `select_character_command` effect on the session map: when the
scan finds a character, the whole session entry is replaced by
`{"current_character": selected_char.get('id', character_name),
"conversation_history": []}`; otherwise nothing changes. -/
def select_character_command (contexts : Nat → Option Session) (uid : Nat)
    (query : List Char) (chars : List ListedCharacter) :
    Nat → Option Session :=
  match find_character query chars with
  | none => contexts
  | some c => set_user_context contexts uid ⟨c.id.getD query, [], none⟩

/-- bot.py `handle_callback_query` on a `select_<char_id>` callback: when
the character resolves, the whole session entry is replaced by
`{"current_character": char_id, "conversation_history": []}`. -/
def handle_callback_select (dbGet : List Char → Option Character)
    (contexts : Nat → Option Session) (uid : Nat) (charId : List Char) :
    Nat → Option Session :=
  match get_character dbGet charId with
  | some _ => set_user_context contexts uid ⟨charId, [], none⟩
  | none => contexts

/-- bot.py `reset_conversation_command`: when the user has a session, only
its `conversation_history` key is overwritten with `[]`; an absent
session stays absent, and other users are untouched. -/
def reset_conversation_command (contexts : Nat → Option Session)
    (uid : Nat) : Nat → Option Session :=
  fun u =>
    if u = uid then
      match contexts uid with
      | some s => some ⟨s.current_character, [], s.creating_character⟩
      | none => none
    else contexts u

/-! ## Theorems -/

/-! ### Helper lemmas about `List.isInfixOf` -/

/-- A prefix occurrence is an occurrence. -/
theorem isInfixOf_of_isPrefixOf (n m : List Char) (h : n.isPrefixOf m = true) :
    n.isInfixOf m = true := by
  cases m with
  | nil =>
    cases n with
    | nil => rfl
    | cons c t => simp [List.isPrefixOf] at h
  | cons c t => simp [List.isInfixOf, h]

/-- An occurrence survives prepending a character. -/
theorem isInfixOf_cons (n : List Char) (c : Char) (t : List Char)
    (h : n.isInfixOf t = true) : n.isInfixOf (c :: t) = true := by
  simp [List.isInfixOf, h]

/-- `n.isPrefixOf (n ++ suf)` always holds. -/
theorem isPrefixOf_self_append (n suf : List Char) :
    n.isPrefixOf (n ++ suf) = true := by
  induction n with
  | nil => cases suf <;> rfl
  | cons c t ih => simp [List.isPrefixOf, ih]

/-- A list occurs in any surrounding context. -/
theorem isInfixOf_append_middle (n pre suf : List Char) :
    n.isInfixOf (pre ++ n ++ suf) = true := by
  induction pre with
  | nil =>
    simp only [List.nil_append]
    exact isInfixOf_of_isPrefixOf _ _ (isPrefixOf_self_append n suf)
  | cons c p ih =>
    simp only [List.cons_append]
    exact isInfixOf_cons _ c _ ih

/-- C2: a text input matching at least one image pattern and at least one
video pattern is classified as image, in both the bot.py classifier
(`extract_generation_intent`) and the database.py classifier
(`detect_generation_intent`): the ordered image-pattern group is evaluated
first and the first match wins. -/
theorem intent_image_precedence (t u : List Char)
    (h1 : image_match (toLowerList t) = true)
    (h2 : video_match (toLowerList t) = true)
    (h3 : image_match_db (toLowerList u) = true)
    (h4 : video_match_db (toLowerList u) = true) :
    extract_generation_intent t = .image t ∧
    detect_generation_intent u = .image u := by
  constructor
  · simp [extract_generation_intent, h1]
  · simp [detect_generation_intent, h3]

/-- Witness for C2: "show me a video" matches an image pattern
("show me") and a video pattern ("video") in both variants and is
classified as image. -/
theorem intent_image_precedence_witness :
    extract_generation_intent "show me a video".data =
      .image ("show me a video".data) ∧
    detect_generation_intent "show me a video".data =
      .image ("show me a video".data) :=
  intent_image_precedence ("show me a video".data) ("show me a video".data)
    (by decide) (by decide) (by decide) (by decide)

/-- C6: a cleaned-up generated reply shorter than 10 characters is
replaced by the synthesized in-character filler, which is neither the raw
short string nor empty. -/
theorem short_reply_fallback (p g name : List Char)
    (h : (clean_response p g).length < 10) :
    decode_reply p g name = fallback_filler name ∧
    decode_reply p g name ≠ clean_response p g ∧
    decode_reply p g name ≠ [] := by
  have h1 : ("*".data).length = 1 := rfl
  have h2 : (" pauses thoughtfully* Tell me more about that.".data).length = 46 :=
    rfl
  have hfl : (fallback_filler name).length = name.length + 47 := by
    simp only [fallback_filler, List.length_append, h1, h2]
    omega
  have hd : decode_reply p g name = fallback_filler name := by
    simp [decode_reply, h]
  refine ⟨hd, ?_, ?_⟩
  · rw [hd]
    intro heq
    have hlen := congrArg List.length heq
    omega
  · rw [hd]
    intro heq
    have hlen := congrArg List.length heq
    rw [List.length_nil] at hlen
    omega

/-- Witness for C6: the generated text "abc hi" against the prompt "abc"
cleans up to "hi" (length 2 < 10) and is replaced by the filler. -/
theorem short_reply_fallback_witness :
    decode_reply "abc".data "abc hi".data "Count Dracul".data =
      fallback_filler "Count Dracul".data ∧
    decode_reply "abc".data "abc hi".data "Count Dracul".data ≠
      clean_response "abc".data "abc hi".data ∧
    decode_reply "abc".data "abc hi".data "Count Dracul".data ≠ [] :=
  short_reply_fallback ("abc".data) ("abc hi".data) ("Count Dracul".data)
    (by decide)

/-- C7 counterexample: for the user description "how do you look" (which
contains "you look"), the image prompt is the fixed portrait prompt and
does not contain the user-supplied description at all, refuting the claim
that every image prompt concatenates appearance, user text, and quality
modifiers. -/
theorem image_prompt_counterexample :
    build_image_prompt "A".data "how do you look".data =
      "A, portrait, high quality, detailed artwork, fantasy art".data ∧
    ("how do you look".data).isInfixOf
      (build_image_prompt "A".data "how do you look".data) = false := by
  decide

/-- C7 (amended): the video prompt always concatenates the appearance,
the user-supplied action text, and fixed quality modifiers; the image
prompt does so exactly when the description is non-empty and does not
contain "you look" (case-insensitively), and otherwise is the fixed
portrait prompt. -/
theorem prompt_concatenation (app d a : List Char) (hd : d ≠ [])
    (hlook : "you look".data.isInfixOf (toLowerList d) = false) :
    build_image_prompt app d =
      app ++ ", ".data ++ d ++ ", high quality, detailed artwork".data ∧
    build_video_prompt app a =
      app ++ ", ".data ++ a ++ ", smooth animation, high quality".data := by
  constructor
  · unfold build_image_prompt
    rw [if_pos ⟨hd, hlook⟩]
  · rfl

/-- Witness for C7: the description "casting a spell" is non-empty and
free of "you look", so both prompts are the three-part concatenations. -/
theorem prompt_concatenation_witness :
    build_image_prompt "Elderly wizard".data "casting a spell".data =
      "Elderly wizard".data ++ ", ".data ++ "casting a spell".data ++
        ", high quality, detailed artwork".data ∧
    build_video_prompt "Elderly wizard".data "dancing".data =
      "Elderly wizard".data ++ ", ".data ++ "dancing".data ++
        ", smooth animation, high quality".data :=
  prompt_concatenation ("Elderly wizard".data) ("casting a spell".data)
    ("dancing".data) (by decide) (by decide)

/-- C4 counterexample: the video-branch failure message contains the raw
backend error body (here the generic classified error text for HTTP 500,
status code included), refuting the claim that no failure message ever
contains the raw error body or status payload. -/
theorem video_fallback_leak :
    ("AI service error (500). Please try again.".data).isInfixOf
      (video_fallback ("AI service error (500). Please try again.".data)) =
      true ∧
    ("500".data).isInfixOf
      (video_fallback ("AI service error (500). Please try again.".data)) =
      true := by
  decide

/-- C4 (amended): the roleplay and image failure branches each send
exactly one apology message that is a function of the failure
classification alone (so it never depends on, nor contains, the raw error
body); the video failure branch sends exactly one message, but that
message embeds the first 100 characters of the raw error text. -/
theorem failure_fallback_classwise (name e₁ e₂ f₁ f₂ e : List Char)
    (hr : classify_roleplay_error e₁ = classify_roleplay_error e₂)
    (hi : classify_image_error f₁ = classify_image_error f₂) :
    roleplay_fallback name e₁ = roleplay_fallback name e₂ ∧
    image_fallback name f₁ = image_fallback name f₂ ∧
    (e.take 100).isInfixOf (video_fallback e) = true := by
  refine ⟨?_, ?_, ?_⟩
  · unfold roleplay_fallback
    rw [hr]
  · unfold image_fallback
    rw [hi]
  · unfold video_fallback
    exact isInfixOf_append_middle _ _ _

/-- Witness for C4: two distinct generic-class error bodies produce the
same apology in the roleplay and image branches, and the video branch
message embeds the (short) error body. -/
theorem failure_fallback_classwise_witness :
    roleplay_fallback "Eldara the Wise".data "boom x".data =
      roleplay_fallback "Eldara the Wise".data "kaput y".data ∧
    image_fallback "Eldara the Wise".data "boom x".data =
      image_fallback "Eldara the Wise".data "kaput y".data ∧
    ("oops".data.take 100).isInfixOf (video_fallback "oops".data) = true :=
  failure_fallback_classwise ("Eldara the Wise".data) ("boom x".data)
    ("kaput y".data) ("boom x".data) ("kaput y".data) ("oops".data)
    (by decide) (by decide)

/-- C8: a built-in persona identifier always resolves; in particular when
the storage collaborator returns nothing for it, the built-in default
definition is returned. -/
theorem builtin_character_fallback (dbGet : List Char → Option Character)
    (id : List Char) (c : Character)
    (hbuiltin : default_character_lookup id = some c) :
    (get_character dbGet id).isSome = true ∧
    (dbGet id = none → get_character dbGet id = some c) := by
  constructor
  · unfold get_character
    cases h : dbGet id with
    | some x => rfl
    | none => simp [hbuiltin]
  · intro h
    unfold get_character
    rw [h]
    exact hbuiltin

/-- Witness for C8: with an empty storage collaborator, "wizard" resolves
to the built-in wizard definition. -/
theorem builtin_character_fallback_witness :
    (get_character (fun _ => none) "wizard".data).isSome = true ∧
    ((fun _ => (none : Option Character)) "wizard".data = none →
      get_character (fun _ => none) "wizard".data = some wizard_character) :=
  builtin_character_fallback (fun _ => none) ("wizard".data) wizard_character
    rfl

/-- C9: a successful character selection — via the select command scan or
the inline-keyboard callback — replaces the whole session entry, leaving
the selected character as the active persona and an empty conversation
history, whatever the previous session (in particular a non-empty
history) contained. -/
theorem select_resets_session (contexts : Nat → Option Session) (uid : Nat)
    (query : List Char) (chars : List ListedCharacter) (c : ListedCharacter)
    (hfind : find_character query chars = some c)
    (dbGet : List Char → Option Character) (cbId : List Char)
    (ch : Character) (hcb : get_character dbGet cbId = some ch) :
    select_character_command contexts uid query chars uid =
      some ⟨c.id.getD query, [], none⟩ ∧
    handle_callback_select dbGet contexts uid cbId uid =
      some ⟨cbId, [], none⟩ := by
  constructor
  · unfold select_character_command
    rw [hfind]
    simp [set_user_context]
  · unfold handle_callback_select
    rw [hcb]
    simp [set_user_context]

/-- Witness for C9: a user whose session has a non-empty history selects
"wizard" by command and "pirate" by callback; both selections yield the
selected persona with an empty history. -/
theorem select_resets_session_witness :
    select_character_command
        (fun _ => some ⟨"android".data, [("Human".data, "hi".data)], none⟩) 1
        "wizard".data [⟨some ("wizard".data), "Eldara the Wise".data⟩] 1 =
      some ⟨"wizard".data, [], none⟩ ∧
    handle_callback_select (fun _ => none)
        (fun _ => some ⟨"android".data, [("Human".data, "hi".data)], none⟩) 1
        "pirate".data 1 =
      some ⟨"pirate".data, [], none⟩ :=
  select_resets_session
    (fun _ => some ⟨"android".data, [("Human".data, "hi".data)], none⟩) 1
    ("wizard".data) [⟨some ("wizard".data), "Eldara the Wise".data⟩]
    ⟨some ("wizard".data), "Eldara the Wise".data⟩ (by decide)
    (fun _ => none) ("pirate".data) pirate_character (by decide)

/-- C10: resetting the conversation empties the history of the user's
session, keeps every other session field (active persona, in-progress
creation state) unchanged, and leaves every other user's session
untouched. -/
theorem reset_clears_history_only (contexts : Nat → Option Session)
    (uid : Nat) (s : Session) (h : contexts uid = some s) :
    reset_conversation_command contexts uid uid =
      some ⟨s.current_character, [], s.creating_character⟩ ∧
    ∀ u, u ≠ uid → reset_conversation_command contexts uid u = contexts u := by
  constructor
  · unfold reset_conversation_command
    simp [h]
  · intro u hu
    unfold reset_conversation_command
    simp [hu]

/-- Witness for C10: a session with an active "vampire" persona and a
non-empty history keeps the persona and loses only the history. -/
theorem reset_clears_history_only_witness :
    reset_conversation_command
        (fun _ => some ⟨"vampire".data, [("Human".data, "hi".data)], none⟩) 4
        4 =
      some ⟨"vampire".data, [], none⟩ ∧
    ∀ u, u ≠ 4 →
      reset_conversation_command
          (fun _ => some ⟨"vampire".data, [("Human".data, "hi".data)], none⟩)
          4 u =
        (fun _ => some ⟨"vampire".data, [("Human".data, "hi".data)], none⟩) u :=
  reset_clears_history_only
    (fun _ => some ⟨"vampire".data, [("Human".data, "hi".data)], none⟩) 4
    ⟨"vampire".data, [("Human".data, "hi".data)], none⟩ rfl

/-! ### C1 lemmas: behaviour of the shared retry loop -/

/-- Against an oracle that fails on every attempt, the loop runs all its
remaining iterations and raises the classification of the last attempt's
failure, having performed `attempt + remaining` attempts in total. -/
theorem retryLoop_all_fail {α : Type} (cl : AttemptOutcome α → ApiFailure)
    (f : Nat → AttemptOutcome α) (hfail : ∀ i, isFailure (f i) = true) :
    ∀ remaining attempt, 0 < remaining →
      retryLoop cl f attempt remaining =
        some (.error (cl (f (attempt + remaining - 1)), attempt + remaining)) := by
  intro remaining
  induction remaining with
  | zero =>
    intro a h
    exact absurd h (Nat.lt_irrefl 0)
  | succ n ih =>
    intro a _
    unfold retryLoop
    cases hE : f a
    case success r =>
      have hf := hfail a
      rw [hE] at hf
      simp [isFailure] at hf
    all_goals
      dsimp only
      by_cases hn : n = 0
      · subst hn
        rw [if_pos rfl, show a + 1 - 1 = a from rfl, hE]
      · rw [if_neg hn, ih (a + 1) (Nat.pos_of_ne_zero hn),
          show a + 1 + n - 1 = a + (n + 1) - 1 from by omega,
          show a + 1 + n = a + (n + 1) from by omega]

/-- Against an oracle whose first attempt fails and whose second attempt
succeeds, the loop returns the success result after 2 attempts. -/
theorem retryLoop_fail_then_success {α : Type}
    (cl : AttemptOutcome α → ApiFailure) (g : Nat → AttemptOutcome α)
    (r : Nat) (res : α) (hr : 2 ≤ r) (hg0 : isFailure (g 0) = true)
    (hg1 : g 1 = .success res) :
    retryLoop cl g 0 r = some (.ok (res, 2)) := by
  obtain ⟨r2, rfl⟩ : ∃ k, r = k + 2 := ⟨r - 2, by omega⟩
  unfold retryLoop
  cases hE : g 0
  case success r0 =>
    rw [hE] at hg0
    simp [isFailure] at hg0
  all_goals
    dsimp only
    rw [if_neg (by omega)]
    unfold retryLoop
    rw [hg1]

/-- C1: both retrying callers, invoked with `retries = r` against an
endpoint that fails on every attempt, perform exactly `r` attempts and
raise the error classified from the final attempt's failure cause
(loading / rate-limit / generic server error for HTTP statuses, timeout,
connection error); against an endpoint that fails exactly once and then
succeeds they return the success result with the elapsed attempt counter
at 2. -/
theorem retrying_caller_spec {α : Type} (f g : Nat → AttemptOutcome α)
    (r : Nat) (res : α) (hr : 2 ≤ r)
    (hf : ∀ i, isFailure (f i) = true)
    (hg0 : isFailure (g 0) = true) (hg1 : g 1 = .success res) :
    call_hf_space_api f r = some (.error (classifyHf (f (r - 1)), r)) ∧
    call_gradio_api f r = some (.error (classifyGradio (f (r - 1)), r)) ∧
    call_hf_space_api g r = some (.ok (res, 2)) ∧
    call_gradio_api g r = some (.ok (res, 2)) := by
  refine ⟨?_, ?_, ?_, ?_⟩
  · have h := retryLoop_all_fail classifyHf f hf r 0 (by omega)
    simpa [call_hf_space_api] using h
  · have h := retryLoop_all_fail classifyGradio f hf r 0 (by omega)
    simpa [call_gradio_api] using h
  · exact retryLoop_fail_then_success classifyHf g r res hr hg0 hg1
  · exact retryLoop_fail_then_success classifyGradio g r res hr hg0 hg1

/-- Witness for C1 at the configured `MAX_RETRIES = 3` (config.py): an
always-timing-out endpoint gives the classified timeout error after
exactly 3 attempts; an endpoint timing out once and then succeeding
returns the result with the attempt counter at 2. -/
theorem retrying_caller_spec_witness :
    call_hf_space_api (fun _ => (.timeout : AttemptOutcome Nat)) 3 =
      some (.error (.timedOut, 3)) ∧
    call_gradio_api (fun _ => (.timeout : AttemptOutcome Nat)) 3 =
      some (.error (.timedOut, 3)) ∧
    call_hf_space_api
        (fun i => if i = 0 then (.timeout : AttemptOutcome Nat)
          else .success 7) 3 =
      some (.ok (7, 2)) ∧
    call_gradio_api
        (fun i => if i = 0 then (.timeout : AttemptOutcome Nat)
          else .success 7) 3 =
      some (.ok (7, 2)) :=
  retrying_caller_spec (fun _ => .timeout)
    (fun i => if i = 0 then .timeout else .success 7) 3 7 (by decide)
    (fun i => rfl) rfl rfl

/-! ### C3 lemmas: sliding-window truncation -/

/-- `l[-n:]` is all of `l` when `l` is short enough. -/
theorem lastN_of_le {β : Type} (n : Nat) (l : List β) (h : l.length ≤ n) :
    lastN n l = l := by
  unfold lastN
  rw [Nat.sub_eq_zero_of_le h, List.drop_zero]

/-- Truncating an already-truncated prefix before appending gives the same
last-`n` window as truncating once at the end. -/
theorem lastN_append_lastN {β : Type} (n : Nat) (xs ys : List β) :
    lastN n (lastN n xs ++ ys) = lastN n (xs ++ ys) := by
  unfold lastN
  rw [List.drop_append_eq_append_drop, List.drop_append_eq_append_drop,
    List.drop_drop]
  congr 1
  · congr 1
    simp only [List.length_append, List.length_drop]
    omega
  · congr 1
    simp only [List.length_append, List.length_drop]
    omega

/-- A smaller window of a larger window is the smaller window. -/
theorem lastN_lastN {β : Type} (m n : Nat) (l : List β) (h : m ≤ n) :
    lastN m (lastN n l) = lastN m l := by
  unfold lastN
  rw [List.drop_drop]
  congr 1
  simp only [List.length_drop]
  omega

/-- One stored exchange is the last-`cap` window of the extended list. -/
theorem update_history_eq {β : Type} (cap : Nat) (h : List β) (u r : β) :
    update_history cap h u r = lastN cap (h ++ [u, r]) := by
  simp only [update_history, lastN]
  by_cases hc : cap < (h ++ [u, r]).length
  · rw [if_pos hc]
  · rw [if_neg hc, Nat.sub_eq_zero_of_le (by omega), List.drop_zero]

/-- Folding stored exchanges from any truncated starting history yields
the last-`cap` window of the full turn sequence. -/
theorem run_history_from {β : Type} (cap : Nat) (pairs : List (β × β)) :
    ∀ h : List β,
      pairs.foldl (fun acc p => update_history cap acc p.1 p.2)
          (lastN cap h) =
        lastN cap (h ++ turnsOf pairs) := by
  induction pairs with
  | nil =>
    intro h
    simp [turnsOf]
  | cons p ps ih =>
    intro h
    simp only [List.foldl_cons]
    rw [update_history_eq, lastN_append_lastN, ih (h ++ [p.1, p.2])]
    congr 1
    simp [turnsOf, List.append_assoc]

/-- The bot.py stored history is exactly the last-`cap` window of all
appended turns. -/
theorem run_history_eq {β : Type} (cap : Nat) (pairs : List (β × β)) :
    run_history cap pairs = lastN cap (turnsOf pairs) := by
  have h0 : lastN cap ([] : List β) = [] := by simp [lastN]
  unfold run_history
  rw [← h0, run_history_from cap pairs []]
  simp

/-- C3 (intent, upheld by bot.py): after appending more than 20 turns, the
bot.py stored history never exceeds the cap of 20, equals exactly the most
recent 20 turns in original append order (FIFO eviction from the oldest
end), and the 6-turn prompt window is exactly the most recent 6 turns.
The final conjunct evaluates the database.py variant at the failing input
of six exchanges: its stored history reaches 12 turns, exceeding its cap
of 10, because the truncated slice is never written back. -/
theorem conversation_history_cap {β : Type} (pairs : List (β × β))
    (hn : 20 < (turnsOf pairs).length) :
    (run_history 20 pairs).length ≤ 20 ∧
    run_history 20 pairs = lastN 20 (turnsOf pairs) ∧
    lastN 6 (run_history 20 pairs) = lastN 6 (turnsOf pairs) ∧
    (run_history_db
      [((1 : Nat), (2 : Nat)), (3, 4), (5, 6), (7, 8), (9, 10),
        (11, 12)]).length = 12 := by
  have he := run_history_eq 20 pairs
  refine ⟨?_, he, ?_, by decide⟩
  · rw [he]
    unfold lastN
    rw [List.length_drop]
    omega
  · rw [he, lastN_lastN 6 20 _ (by omega)]

/-- Witness for C3: eleven exchanges append 22 turns; the stored history
is capped at 20. -/
theorem conversation_history_cap_witness :
    (run_history 20
      [((1 : Nat), (2 : Nat)), (3, 4), (5, 6), (7, 8), (9, 10), (11, 12),
        (13, 14), (15, 16), (17, 18), (19, 20), (21, 22)]).length ≤ 20 ∧
    run_history 20
        [((1 : Nat), (2 : Nat)), (3, 4), (5, 6), (7, 8), (9, 10), (11, 12),
          (13, 14), (15, 16), (17, 18), (19, 20), (21, 22)] =
      lastN 20 (turnsOf
        [((1 : Nat), (2 : Nat)), (3, 4), (5, 6), (7, 8), (9, 10), (11, 12),
          (13, 14), (15, 16), (17, 18), (19, 20), (21, 22)]) ∧
    lastN 6 (run_history 20
        [((1 : Nat), (2 : Nat)), (3, 4), (5, 6), (7, 8), (9, 10), (11, 12),
          (13, 14), (15, 16), (17, 18), (19, 20), (21, 22)]) =
      lastN 6 (turnsOf
        [((1 : Nat), (2 : Nat)), (3, 4), (5, 6), (7, 8), (9, 10), (11, 12),
          (13, 14), (15, 16), (17, 18), (19, 20), (21, 22)]) ∧
    (run_history_db
      [((1 : Nat), (2 : Nat)), (3, 4), (5, 6), (7, 8), (9, 10),
        (11, 12)]).length = 12 :=
  conversation_history_cap
    [((1 : Nat), (2 : Nat)), (3, 4), (5, 6), (7, 8), (9, 10), (11, 12),
      (13, 14), (15, 16), (17, 18), (19, 20), (21, 22)] (by decide)

/-! ### C5 lemmas: base64 and the response decoders -/

theorem b64_table : ∀ v < 64, b64Val (b64Char v) = v ∧ b64Char v ≠ '=' := by decide

theorem b64_roundtrip (l : List Nat) (hl : ∀ b ∈ l, b < 256) :
    b64decode (b64encode l) = l := by
  induction l using b64encode.induct with
  | case1 => rfl
  | case2 a =>
    have ha : a < 256 := hl a (by simp)
    have h1 := b64_table (a / 4) (by omega)
    have h2 := b64_table (a % 4 * 16) (by omega)
    simp [b64encode, b64decode, h1.1, h2.1] <;> omega
  | case3 a b =>
    have ha : a < 256 := hl a (by simp)
    have hb : b < 256 := hl b (by simp)
    have h1 := b64_table (a / 4) (by omega)
    have h2 := b64_table (a % 4 * 16 + b / 16) (by omega)
    have h3 := b64_table (b % 16 * 4) (by omega)
    simp [b64encode, b64decode, h3.2, h1.1, h2.1, h3.1] <;> omega
  | case4 a b c rest ih =>
    have ha : a < 256 := hl a (by simp)
    have hb : b < 256 := hl b (by simp)
    have hc : c < 256 := hl c (by simp)
    have h1 := b64_table (a / 4) (by omega)
    have h2 := b64_table (a % 4 * 16 + b / 16) (by omega)
    have h3 := b64_table (b % 16 * 4 + c / 64) (by omega)
    have h4 := b64_table (c % 64) (by omega)
    have hrest : ∀ x ∈ rest, x < 256 := fun x hx => hl x (by simp [hx])
    simp [b64encode, b64decode, h3.2, h4.2, h1.1, h2.1, h3.1, h4.1,
      ih hrest] <;> omega

theorem b64Char_mem_or (v : Nat) : b64Char v ∈ b64Alphabet ∨ b64Char v = '=' := by
  unfold b64Char
  by_cases h : v < b64Alphabet.length
  · left
    rw [List.getD_eq_getElem _ _ h]
    exact List.getElem_mem h
  · right
    exact List.getD_eq_default _ _ (by omega)

theorem mem_b64encode (l : List Nat) :
    ∀ c ∈ b64encode l, c ∈ b64Alphabet ∨ c = '=' := by
  induction l using b64encode.induct with
  | case1 => intro c hc; simp [b64encode] at hc
  | case2 a =>
    intro c hc
    simp only [b64encode, List.mem_cons, List.not_mem_nil, or_false] at hc
    rcases hc with rfl | rfl | rfl | rfl
    · exact b64Char_mem_or _
    · exact b64Char_mem_or _
    · exact Or.inr rfl
    · exact Or.inr rfl
  | case3 a b =>
    intro c hc
    simp only [b64encode, List.mem_cons, List.not_mem_nil, or_false] at hc
    rcases hc with rfl | rfl | rfl | rfl
    · exact b64Char_mem_or _
    · exact b64Char_mem_or _
    · exact b64Char_mem_or _
    · exact Or.inr rfl
  | case4 a b c rest ih =>
    intro x hx
    simp only [b64encode, List.mem_cons] at hx
    rcases hx with rfl | rfl | rfl | rfl | hx
    · exact b64Char_mem_or _
    · exact b64Char_mem_or _
    · exact b64Char_mem_or _
    · exact b64Char_mem_or _
    · exact ih x hx

theorem not_dataImage_isPrefixOf_encode (p : List Nat) :
    ("data:image".data).isPrefixOf (b64encode p) = false := by
  cases hb : ("data:image".data).isPrefixOf (b64encode p) with
  | false => rfl
  | true =>
    exfalso
    obtain ⟨t, ht⟩ := List.isPrefixOf_iff_prefix.mp hb
    have hcolon : (':' : Char) ∈ b64encode p := by
      rw [← ht]
      exact List.mem_append_left t (by decide)
    rcases mem_b64encode p ':' hcolon with h | h
    · exact absurd h (by decide)
    · exact absurd h (by decide)

theorem takeWhile_of_all (P : Char → Bool) (l : List Char)
    (h : ∀ c ∈ l, P c = true) : l.takeWhile P = l := by
  induction l with
  | nil => rfl
  | cons c t ih =>
    rw [List.takeWhile_cons, h c (by simp), ih (fun x hx => h x (by simp [hx]))]
    simp

theorem encode_no_comma (p : List Nat) :
    ∀ c ∈ b64encode p, (c != ',') = true := by
  intro c hc
  rcases mem_b64encode p c hc with h | h
  · simp only [bne_iff_ne, ne_eq]
    intro he
    subst he
    exact absurd h (by decide)
  · subst h
    decide

theorem dropWhile_dataUri (tail : List Char) :
    ("data:image/png;base64,".data ++ tail).dropWhile (fun c => c != ',') =
      ',' :: tail := rfl

theorem split_second_dataUri (p : List Nat) :
    split_comma_second ("data:image/png;base64,".data ++ b64encode p) =
      b64encode p := by
  unfold split_comma_second
  rw [dropWhile_dataUri]
  simp only [List.drop_succ_cons, List.drop_zero]
  exact takeWhile_of_all _ _ (encode_no_comma p)

theorem split_rest_dataUri (p : List Nat) :
    split_comma_rest ("data:image/png;base64,".data ++ b64encode p) =
      b64encode p := by
  unfold split_comma_rest
  rw [dropWhile_dataUri]
  simp only [List.drop_succ_cons, List.drop_zero]

theorem dataImage_prefix_dataUri (tail : List Char) :
    ("data:image".data).isPrefixOf ("data:image/png;base64,".data ++ tail) =
      true := rfl

/-- C5: the image response decoder accepts three encodings of the payload
(a bare base64 string, a data-URI-prefixed base64 string, and a
URL-bearing structure), and the two base64 encodings of the same byte
payload decode to identical bytes (the payload itself); the bot.py
variant handles the two string encodings identically. -/
theorem image_decoding_encodings (p : List Nat) (hp : ∀ b ∈ p, b < 256)
    (fetch : List Char → List Nat) (u : List Char) :
    decode_image_payload fetch (.pstr (b64encode p)) = some p ∧
    decode_image_payload fetch
      (.pstr ("data:image/png;base64,".data ++ b64encode p)) = some p ∧
    decode_image_payload fetch (.urlRef u) = some (fetch u) ∧
    decode_image_payload_bot (.pstr (b64encode p)) = some p ∧
    decode_image_payload_bot
      (.pstr ("data:image/png;base64,".data ++ b64encode p)) = some p := by
  refine ⟨?_, ?_, rfl, ?_, ?_⟩
  · unfold decode_image_payload
    dsimp only
    rw [if_neg (by simp [not_dataImage_isPrefixOf_encode p]),
      b64_roundtrip p hp]
  · unfold decode_image_payload
    dsimp only
    rw [if_pos (dataImage_prefix_dataUri (b64encode p)),
      split_second_dataUri p, b64_roundtrip p hp]
  · unfold decode_image_payload_bot
    dsimp only
    rw [if_neg (by simp [not_dataImage_isPrefixOf_encode p]),
      b64_roundtrip p hp]
  · unfold decode_image_payload_bot
    dsimp only
    rw [if_pos (dataImage_prefix_dataUri (b64encode p)),
      split_rest_dataUri p, b64_roundtrip p hp]

/-- Witness for C5 on the concrete payload [77, 1, 255, 0]. -/
theorem image_decoding_encodings_witness :
    decode_image_payload (fun _ => []) (.pstr (b64encode [77, 1, 255, 0])) =
      some [77, 1, 255, 0] ∧
    decode_image_payload (fun _ => [])
      (.pstr ("data:image/png;base64,".data ++ b64encode [77, 1, 255, 0])) =
      some [77, 1, 255, 0] ∧
    decode_image_payload (fun _ => []) (.urlRef "u".data) =
      some ((fun _ => []) ("u".data)) ∧
    decode_image_payload_bot (.pstr (b64encode [77, 1, 255, 0])) =
      some [77, 1, 255, 0] ∧
    decode_image_payload_bot
      (.pstr ("data:image/png;base64,".data ++ b64encode [77, 1, 255, 0])) =
      some [77, 1, 255, 0] :=
  image_decoding_encodings [77, 1, 255, 0] (by decide) (fun _ => [])
    ("u".data)

